import Mathlib

/-!
# Back-in-stock subscription and notification bridge: a shallow embedding

This file embeds the subscription-reconciliation logic of the repository
(`app/routes/*backinstock*`) in Lean 4 and proves properties of it.

The embedding conventions:
* JavaScript strings are `String`, JSON values are `JsonVal` (numbers are
  modelled as `Int`: every quantity handled by the routes is an integer and
  no claim depends on non-integral arithmetic).
* JavaScript string helpers (`startsWith`, `split("/")`) are re-implemented
  over `List Char` (`jsStartsWith`, `jsSplitSlash`) so that every definition
  evaluates by kernel reduction.
* Fallible remote calls (Admin GraphQL, the outbound notification fetch) are
  oracles passed in as explicit values/functions; a thrown exception is the
  `Except.error` / `none` case of the oracle result.
* Early `return json(...)` statements of the route handlers become
  `Except.error r` for a `FlowResponse` constructor `r`; the HTTP status,
  `ok` flag, `skipped` flag, `reason` and `error` strings the route attaches
  to each response are recovered by `statusOf`, `okOf`, `skippedOf`,
  `reasonOf` and `errorTextOf`.
-/

/-- JSON values as handled by the routes.  Objects do not occur in any of the
parsed positions the routes inspect (`Array.isArray` and `typeof` checks send
every non-array, non-primitive to the same branch as the listed
constructors), so they are not modelled. -/
inductive JsonVal where
  | null
  | bool (b : Bool)
  | num (n : Int)
  | str (s : String)
  | arr (xs : List JsonVal)

/-- JavaScript truthiness (`if (x)`, `!x`) on a JSON value:
`null`, `false`, `0` and `""` are falsy. -/
def jsFalsy : JsonVal → Bool
  | .null => true
  | .bool b => !b
  | .num n => n == 0
  | .str s => s == ""
  | .arr _ => false

/-- `String.prototype.startsWith`, re-implemented over character lists. -/
def jsStartsWith (s p : String) : Bool := p.data.isPrefixOf s.data

/-- Helper for `jsSplitSlash`: walk the characters, cutting at each slash. -/
def splitSlashAux : List Char → List Char → List String
  | [], acc => [String.mk acc.reverse]
  | c :: cs, acc =>
    if c = '/' then String.mk acc.reverse :: splitSlashAux cs []
    else splitSlashAux cs (c :: acc)

/-- `String.prototype.split("/")`, re-implemented over character lists. -/
def jsSplitSlash (s : String) : List String := splitSlashAux s.data []

/-- JavaScript truthiness applied to an optional string (`value ? a : b`,
`if (raw)`): `undefined`/`null` and `""` are falsy. -/
def truthyStr : Option String → Option String
  | none => none
  | some s => if s = "" then none else some s

/-- JavaScript `a || b` on optional strings: keep `a` when truthy, else `b`. -/
def jsOrStr (a b : Option String) : Option String :=
  match a with
  | some s => if s = "" then b else some s
  | none => b

/-! ## Identifier Normalizer

The four places the routes turn an identifier into a fully-qualified global
ID, and the one place a global ID is reduced back to its numeric tail. -/

/-- `toVariantGid` from the app-proxy subscribe route:
`if (id.startsWith("gid://")) return id; return `gid://shopify/ProductVariant/${id}`;`. -/
def toVariantGid (id : String) : String :=
  if jsStartsWith id "gid://" then id else "gid://shopify/ProductVariant/" ++ id

/-- Variant-GID construction in the origin-mapped subscribe route and in
`public.backinstock-subscribe.ts`: the template literal
`gid://shopify/ProductVariant/${variantIdRaw}` applied unconditionally. -/
def originSubscribeVariantGid (variantIdRaw : String) : String :=
  "gid://shopify/ProductVariant/" ++ variantIdRaw

/-- Company-GID normalization in `api.backinstock.list.ts`:
`id.startsWith("gid://") ? id : `gid://shopify/Company/${id}`
 `. -/
def companyGidForList (id : String) : String :=
  if jsStartsWith id "gid://" then id else "gid://shopify/Company/" ++ id

/-- Company-GID construction in the stock-restored fan-out: the template
literal `gid://shopify/Company/${companyId}` applied unconditionally. -/
def companyGidForFanout (companyId : String) : String :=
  "gid://shopify/Company/" ++ companyId

/-! ## Subscription Store Adapter: read and add -/

/-- The read step of the stock-restored handler (step 6) and of the
origin-mapped subscribe route: take the raw metafield value (absent field or
null value ↦ `none`), check truthiness, `JSON.parse` it through the supplied
parser (a thrown parse error ↦ `none`), require `Array.isArray`, and keep the
elements with `typeof c === "string"`.  Every failure mode yields `[]`. -/
def extractCompanyIds (parse : String → Option JsonVal) (raw : Option String) :
    List String :=
  match truthyStr raw with
  | none => []
  | some s =>
    match parse s with
    | some (.arr xs) =>
      xs.filterMap fun j => match j with | .str c => some c | _ => none
    | _ => []

/-- The read step of the app-proxy subscribe route:
`current = value ? JSON.parse(value) : []; if (!Array.isArray(current)) current = [];`
with the whole read wrapped in a `try`/`catch` that resets to `[]`.
No element filtering happens on this path. -/
def readSubscribersProxy (parse : String → Option JsonVal) (raw : Option String) :
    List JsonVal :=
  match truthyStr raw with
  | none => []
  | some s =>
    match parse s with
    | some (.arr xs) => xs
    | _ => []

/-- The read step of `api.backinstock.list.ts`: truthy raw value, parse inside
`try`/`catch`, `Array.isArray` check, then `parsed.filter(Boolean)` (keep the
truthy elements). -/
def readSubscribersList (parse : String → Option JsonVal) (raw : Option String) :
    List JsonVal :=
  match truthyStr raw with
  | none => []
  | some s =>
    match parse s with
    | some (.arr xs) => xs.filter fun j => !jsFalsy j
    | _ => []

/-- The add step shared verbatim by the origin-mapped subscribe route and
`public.backinstock-subscribe.ts`:
`if (!companies.includes(companyId)) companies.push(companyId);`. -/
def addSubscriber (current : List String) (companyId : String) : List String :=
  if companyId ∈ current then current else current ++ [companyId]

/-- JavaScript strict equality of an array element against the posted
company-ID string, as used by `current.includes(companyId)` in the app-proxy
subscribe route, where `current` is the raw parsed array: a non-string
element is never `===` a string. -/
def jsStrictEqStr : JsonVal → String → Bool
  | .str s, c => s == c
  | _, _ => false

/-- The add step of the app-proxy subscribe route, operating on the raw
parsed array: `if (!current.includes(companyId)) current.push(companyId);`. -/
def addSubscriberProxy (current : List JsonVal) (companyId : String) :
    List JsonVal :=
  if current.any (fun j => jsStrictEqStr j companyId) then current
  else current ++ [.str companyId]

/-- `n` sequential repetitions of `addSubscriber current companyId`. -/
def addSubscriberTimes (current : List String) (companyId : String) :
    Nat → List String
  | 0 => current
  | n + 1 => addSubscriber (addSubscriberTimes current companyId n) companyId

/-- The clear step of the stock-restored handler writes the literal JSON
string `"[]"` over the metafield, independent of its previous contents. -/
def clearSubscribers (_current : List String) : List String := []

/-- The value the clear mutation writes. -/
def clearedValue : String := "[]"

/-! ## The stock-restored handler -/

/-- Process configuration visible to the stock-restored route:
`process.env.FLOW_SHARED_SECRET` (`none` = unset). -/
structure FlowEnv where
  flowSharedSecret : Option String

/-- The request body after `request.json()` succeeded: the four fields the
handler destructures, each possibly absent. A `null` body behaves like a body
with every field absent (`body ?? {}`). -/
structure FlowBody where
  shopId : Option JsonVal
  variantId : Option JsonVal
  inventoryQuantity : Option JsonVal
  previousInventoryQuantity : Option JsonVal

/-- An incoming request to `POST /stock-restored`: method, the
`X-Flow-Secret` header (`none` = absent), and the parsed JSON body
(`none` = `request.json()` threw). -/
structure FlowRequest where
  method : String
  flowSecretHeader : Option String
  body : Option FlowBody

/-- A shop credential binding as returned by `getShopAdminConfig`. -/
structure ShopAdminConfig where
  shopDomain : String
  adminAccessToken : String
  deriving DecidableEq

/-- The product object nested in the variant query result. -/
structure ProductNode where
  id : Option String
  title : Option String
  handle : Option String
  deriving DecidableEq

/-- The `productVariant` node of the Admin GraphQL variant query, with the
`backinstock.notify_companies` metafield value (`none` = metafield missing or
value null). -/
structure VariantNode where
  sku : Option String
  displayName : Option String
  product : Option ProductNode
  metafieldValue : Option String
  deriving DecidableEq

/-- The email-address object nested in the company query result. -/
structure EmailAddressNode where
  emailAddress : Option String
  deriving DecidableEq

/-- The customer object nested in the company query result. -/
structure CustomerNode where
  defaultEmailAddress : Option EmailAddressNode
  email : Option String
  deriving DecidableEq

/-- The main-contact object nested in the company query result. -/
structure MainContactNode where
  customer : Option CustomerNode
  email : Option String
  deriving DecidableEq

/-- The `company` node of the Admin GraphQL company query. -/
structure CompanyNode where
  name : String
  mainContact : Option MainContactNode
  deriving DecidableEq

/-- A resolved recipient, as pushed onto the `recipients` array. -/
structure CompanyRecipient where
  id : String
  name : String
  email : String
  deriving DecidableEq

/-- The body of the outbound notification response, of which the handler
only inspects `ocResp.ok` (HTTP 2xx). -/
structure DispatchResp where
  ok : Bool
  deriving DecidableEq

/-- The external collaborators of one stock-restored invocation.
`shopConfig` collapses the static `SHOP_CONFIGS` table and the environment
variables it points at (`getShopAdminConfig` throwing ↦ `none`);
`variantFetch` is the result of the single variant query (`Except.error` =
`adminGraphql` threw, `Option.none` = `productVariant` null); `jsonParse`
is `JSON.parse` restricted to the values it is applied to (`none` = throw);
`companyFetch` is the company query keyed by the full company GID;
`dispatch` is the outbound `fetch` to the notification endpoint
(`Except.error` = transport failure); `clearResult` is the clear mutation's
own result, which the handler only logs. -/
structure Oracles where
  shopConfig : String → Option ShopAdminConfig
  variantFetch : Except Unit (Option VariantNode)
  jsonParse : String → Option JsonVal
  companyFetch : String → Except Unit (Option CompanyNode)
  dispatch : Except Unit DispatchResp
  clearResult : Except Unit Unit

/-- The distinct responses the stock-restored action can produce. -/
inductive FlowResponse where
  | methodNotAllowed
  | unauthorized
  | invalidJson
  | missingShopId
  | missingVariantId
  | badQuantities
  | skippedThreshold
  | unknownShop
  | variantLoadError
  | variantNotFound
  | skippedNoCompanies
  | skippedNoEmails
  | noProductId
  | dispatchFailedTransport
  | dispatchFailedHttp
  | success (sent : Nat) (product_id : Int)
  deriving DecidableEq

/-- The HTTP status attached to each response. -/
def statusOf : FlowResponse → Nat
  | .methodNotAllowed => 405
  | .unauthorized => 401
  | .invalidJson => 400
  | .missingShopId => 400
  | .missingVariantId => 400
  | .badQuantities => 400
  | .skippedThreshold => 200
  | .unknownShop => 500
  | .variantLoadError => 500
  | .variantNotFound => 404
  | .skippedNoCompanies => 200
  | .skippedNoEmails => 200
  | .noProductId => 500
  | .dispatchFailedTransport => 502
  | .dispatchFailedHttp => 502
  | .success _ _ => 200

/-- The `ok` flag of the JSON body of each response (`methodNotAllowed` is a
plain-text response and carries no flag; it is reported as `false`). -/
def okOf : FlowResponse → Bool
  | .skippedThreshold => true
  | .skippedNoCompanies => true
  | .skippedNoEmails => true
  | .success _ _ => true
  | _ => false

/-- Whether the JSON body carries `skipped: true`. -/
def skippedOf : FlowResponse → Bool
  | .skippedThreshold => true
  | .skippedNoCompanies => true
  | .skippedNoEmails => true
  | _ => false

/-- The `reason` string of the skip responses. -/
def reasonOf : FlowResponse → Option String
  | .skippedThreshold => some "Inventory threshold not crossed"
  | .skippedNoCompanies => some "No subscribed companies"
  | .skippedNoEmails => some "No company emails found"
  | _ => none

/-- The `error` string of the failure responses. -/
def errorTextOf : FlowResponse → Option String
  | .unauthorized => some "Unauthorized"
  | .invalidJson => some "Invalid JSON"
  | .missingShopId => some "Missing shopId"
  | .missingVariantId => some "Missing variantId"
  | .badQuantities =>
    some "inventoryQuantity and previousInventoryQuantity must be numbers"
  | .unknownShop => some "Unknown or misconfigured shopId"
  | .variantLoadError => some "Error loading variant via Admin API"
  | .variantNotFound => some "Variant not found"
  | .noProductId => some "Could not derive product_id from product GID"
  | .dispatchFailedHttp => some "OpenCart sendEmail failed"
  | .dispatchFailedTransport => some "Error calling OpenCart sendEmail"
  | _ => none

/-! ### Body validation and normalization -/

/-- JavaScript `String(x)` on the JSON values the handler can receive as
`shopId`.  Arrays stringify as their comma-joined elements. -/
def jsToString : JsonVal → String
  | .null => "null"
  | .bool true => "true"
  | .bool false => "false"
  | .num n => toString n
  | .str s => s
  | .arr xs => String.intercalate "," (xs.attach.map fun c => jsToString c.1)
termination_by v => sizeOf v
decreasing_by
  simp_wf
  have h := List.sizeOf_lt_of_mem c.2
  omega

/-- Shop-ID normalization: a string starting with `gid://shopify/Shop/` is
split on `/` and the last segment taken (`split("/").pop() || shopId`: an
empty tail falls back to the whole string); anything else goes through
`String(shopId)`. -/
def normalizeShopId (shopId : JsonVal) : String :=
  match shopId with
  | .str s =>
    if jsStartsWith s "gid://shopify/Shop/" then
      let t := (jsSplitSlash s).getLastD ""
      if t = "" then s else t
    else s
  | v => jsToString v

/-- The data surviving body validation (step 2 of the action). -/
structure Validated where
  shopIdRaw : JsonVal
  normalizedShopId : String
  variantId : JsonVal
  inventoryQuantity : Int
  previousInventoryQuantity : Int

/-- Method check: anything but POST is answered 405. -/
def checkMethod (req : FlowRequest) : Except FlowResponse Unit :=
  if req.method = "POST" then .ok () else .error .methodNotAllowed

/-- Step 1 of the action, the shared-secret check:
`const flowSecretHeader = request.headers.get("X-Flow-Secret") ?? "";`
`const expectedSecret = process.env.FLOW_SHARED_SECRET ?? "";`
`if (!expectedSecret || flowSecretHeader !== expectedSecret) return 401;`. -/
def checkSecret (env : FlowEnv) (req : FlowRequest) : Except FlowResponse Unit :=
  if env.flowSharedSecret.getD "" = "" ∨
      req.flowSecretHeader.getD "" ≠ env.flowSharedSecret.getD "" then
    .error .unauthorized
  else .ok ()

/-- Step 2, `await request.json()`: a throw is a 400. -/
def parseBody (req : FlowRequest) : Except FlowResponse FlowBody :=
  match req.body with
  | none => .error .invalidJson
  | some b => .ok b

/-- The rest of step 2: the `!shopId` and `!variantId` truthiness checks, the
shop-ID normalization between them, and the `typeof ... !== "number"` check
on both quantities. -/
def validateBody (b : FlowBody) : Except FlowResponse Validated :=
  match b.shopId with
  | none => .error .missingShopId
  | some sid =>
    if jsFalsy sid then .error .missingShopId
    else
      let normalized := normalizeShopId sid
      match b.variantId with
      | none => .error .missingVariantId
      | some vid =>
        if jsFalsy vid then .error .missingVariantId
        else
          match b.inventoryQuantity, b.previousInventoryQuantity with
          | some (.num newQ), some (.num prevQ) =>
            .ok ⟨sid, normalized, vid, newQ, prevQ⟩
          | _, _ => .error .badQuantities

/-- Step 3, the threshold gate:
`if (!(inventoryQuantity > 0 && previousInventoryQuantity <= 0))` skip. -/
def runGate (v : Validated) : Except FlowResponse Validated :=
  if 0 < v.inventoryQuantity ∧ v.previousInventoryQuantity ≤ 0 then .ok v
  else .error .skippedThreshold

/-- Step 4, `getShopAdminConfig(normalizedShopId)`: a throw (unknown shop ID
or missing env vars) is a 500. -/
def resolveShop (O : Oracles) (v : Validated) :
    Except FlowResponse ShopAdminConfig :=
  match O.shopConfig v.normalizedShopId with
  | none => .error .unknownShop
  | some cfg => .ok cfg

/-- Step 5, the variant query: a throw is a 500, a null `productVariant` is a
404. -/
def loadVariant (O : Oracles) : Except FlowResponse VariantNode :=
  match O.variantFetch with
  | .error _ => .error .variantLoadError
  | .ok none => .error .variantNotFound
  | .ok (some node) => .ok node

/-- The gate after step 6: `if (companyIds.length === 0)` skip. -/
def checkCompanies (ids : List String) : Except FlowResponse (List String) :=
  if ids = [] then .error .skippedNoCompanies else .ok ids

/-- The email derivation of step 7:
`mc?.customer?.defaultEmailAddress?.emailAddress || mc?.customer?.email || mc?.email`
followed by the `if (!email)` drop. -/
def deriveEmail (node : CompanyNode) : Option String :=
  let e1 := node.mainContact.bind fun mc =>
    mc.customer.bind fun cu =>
      cu.defaultEmailAddress.bind fun d => d.emailAddress
  let e2 := node.mainContact.bind fun mc => mc.customer.bind fun cu => cu.email
  let e3 := node.mainContact.bind fun mc => mc.email
  truthyStr (jsOrStr e1 (jsOrStr e2 e3))

/-- Step 7, the company fan-out: each subscriber ID is looked up under its
fan-out GID; a throw, a null company, or no derivable email drops the entry
silently.  The concurrent `Promise.all` push order is modelled as list
order (no claim distinguishes orders). -/
def resolveRecipients (companyFetch : String → Except Unit (Option CompanyNode))
    (ids : List String) : List CompanyRecipient :=
  ids.filterMap fun companyId =>
    match companyFetch (companyGidForFanout companyId) with
    | .error _ => none
    | .ok none => none
    | .ok (some node) =>
      match deriveEmail node with
      | none => none
      | some email => some ⟨companyId, node.name, email⟩

/-- The gate after step 7: `if (recipients.length === 0)` skip. -/
def checkRecipients (rs : List CompanyRecipient) :
    Except FlowResponse (List CompanyRecipient) :=
  if rs = [] then .error .skippedNoEmails else .ok rs

/-! ### Step 8: numeric product ID via `parseInt(last, 10)` -/

/-- The whitespace characters `parseInt` skips (the ASCII subset; no route
input contains the further Unicode space characters). -/
def jsIsWhitespace (c : Char) : Bool :=
  c = ' ' ∨ c = '\t' ∨ c = '\n' ∨ c = '\r'

/-- Decimal digit value of a character, if it is one. -/
def digitVal : Char → Option Nat := fun c =>
  if '0' ≤ c ∧ c ≤ '9' then some (c.toNat - '0'.toNat) else none

/-- Longest leading run of decimal digits. -/
def takeDigits : List Char → List Nat
  | [] => []
  | c :: cs =>
    match digitVal c with
    | some d => d :: takeDigits cs
    | none => []

/-- Value of a digit run. -/
def digitsToNat (ds : List Nat) : Nat := ds.foldl (fun acc d => acc * 10 + d) 0

/-- JavaScript `parseInt(s, 10)`: skip leading whitespace, optional sign,
then the longest leading digit run; `none` is `NaN` (no digits). -/
def jsParseInt10 (s : String) : Option Int :=
  let cs := s.data.dropWhile jsIsWhitespace
  let signed : Int × List Char :=
    match cs with
    | '-' :: rest => (-1, rest)
    | '+' :: rest => (1, rest)
    | _ => (1, cs)
  let ds := takeDigits signed.2
  if ds = [] then none
  else some (signed.1 * (digitsToNat ds : Int))

/-- Step 8: `productGid.split("/")`, last element, `parseInt(..., 10)`;
`productNumericId` stays null when the product GID is absent or the parse is
`NaN`, and the subsequent `if (!productNumericId)` also rejects a parsed `0`
(JavaScript falsiness), answering 500. -/
def deriveProduct (node : VariantNode) : Except FlowResponse Int :=
  match node.product.bind ProductNode.id with
  | none => .error .noProductId
  | some g =>
    match jsParseInt10 ((jsSplitSlash g).getLastD "") with
    | none => .error .noProductId
    | some n => if n == 0 then .error .noProductId else .ok n

/-! ### Steps 9–11: payload, dispatch, clear, response -/

/-- The state available when the handler reaches the dispatch step. -/
structure DispatchState where
  shopCfg : ShopAdminConfig
  variantNode : VariantNode
  companyIds : List String
  recipients : List CompanyRecipient
  productNumericId : Int
  validated : Validated

/-- The outbound payload of step 9 (the `flowSecretHeader` echo the code
spreads in is authentication plumbing carried unchanged; it is not part of
the documented payload shape and no claim mentions it). -/
structure OcPayload where
  product_id : Int
  product_title : String
  variant_title : String
  sku : String
  product_url : String
  subscribers : List String
  deriving DecidableEq

/-- Step 9: build the outbound payload. -/
def mkPayload (st : DispatchState) : OcPayload :=
  let handle := (st.variantNode.product.bind ProductNode.handle).getD ""
  let productUrl :=
    if handle = "" then
      "https://" ++ st.shopCfg.shopDomain ++ "/products/" ++
        toString st.productNumericId
    else "https://" ++ st.shopCfg.shopDomain ++ "/products/" ++ handle
  { product_id := st.productNumericId
    product_title := (st.variantNode.product.bind ProductNode.title).getD ""
    variant_title := st.variantNode.displayName.getD ""
    sku := st.variantNode.sku.getD ""
    product_url := productUrl
    subscribers := st.recipients.map CompanyRecipient.email }

/-- Steps 4 through 8, chained with early returns. -/
def postGate (O : Oracles) (v : Validated) : Except FlowResponse DispatchState :=
  match resolveShop O v with
  | .error r => .error r
  | .ok cfg =>
    match loadVariant O with
    | .error r => .error r
    | .ok node =>
      match checkCompanies (extractCompanyIds O.jsonParse node.metafieldValue) with
      | .error r => .error r
      | .ok ids =>
        match checkRecipients (resolveRecipients O.companyFetch ids) with
        | .error r => .error r
        | .ok rs =>
          match deriveProduct node with
          | .error r => .error r
          | .ok pid => .ok ⟨cfg, node, ids, rs, pid, v⟩

/-- Steps 1 through 8, chained with early returns. -/
def preDispatch (env : FlowEnv) (req : FlowRequest) (O : Oracles) :
    Except FlowResponse DispatchState :=
  match checkMethod req with
  | .error r => .error r
  | .ok _ =>
    match checkSecret env req with
    | .error r => .error r
    | .ok _ =>
      match parseBody req with
      | .error r => .error r
      | .ok b =>
        match validateBody b with
        | .error r => .error r
        | .ok v =>
          match runGate v with
          | .error r => .error r
          | .ok v2 => postGate O v2

/-- The observable outcome of one invocation: the response, the payload sent
to the notification endpoint (`none` = the outbound `fetch` was never
reached), and the value written by the clear mutation (`none` = the clear
mutation was never issued). -/
structure FlowOutcome where
  resp : FlowResponse
  dispatched : Option OcPayload
  clearWrite : Option String
  deriving DecidableEq

/-- The whole stock-restored action.  A transport failure of the outbound
fetch (step 10's `catch`) and a non-2xx response both answer 502 without
issuing the clear mutation; a 2xx response issues the clear mutation (whose
own result is only logged) and answers 200 with `sent = recipients.length`. -/
def runStockRestored (env : FlowEnv) (req : FlowRequest) (O : Oracles) :
    FlowOutcome :=
  match preDispatch env req O with
  | .error r => ⟨r, none, none⟩
  | .ok st =>
    let payload := mkPayload st
    match O.dispatch with
    | .error _ => ⟨.dispatchFailedTransport, some payload, none⟩
    | .ok dresp =>
      if dresp.ok then
        ⟨.success st.recipients.length st.productNumericId, some payload,
          some clearedValue⟩
      else ⟨.dispatchFailedHttp, some payload, none⟩

/-! ## A concrete scenario

One fully concrete invocation (environment, request, oracles) used to
instantiate the theorems below, with variations for the failure branches. -/

/-- The configured shared secret of the concrete scenario. -/
def secretVal : String := "flow-secret"

/-- A shop GID as Shopify Flow sends it. -/
def gidShop : String := "gid://shopify/Shop/66638577877"

/-- A variant GID as Shopify Flow sends it. -/
def gidVariant : String := "gid://shopify/ProductVariant/44763933573333"

/-- A well-formed request with the given quantities. -/
def mkReq (prevQ newQ : Int) : FlowRequest :=
  ⟨"POST", some secretVal,
    some ⟨some (.str gidShop), some (.str gidVariant), some (.num newQ),
      some (.num prevQ)⟩⟩

/-- A well-formed crossing request: previous 0, new 3. -/
def reqOk : FlowRequest := mkReq 0 3

/-- Environment with the shared secret set. -/
def envOk : FlowEnv := ⟨some secretVal⟩

/-- The stored metafield value of the scenario: two subscribers. -/
def metaTwo : String := "[\"C1\",\"C2\"]"

/-- A `JSON.parse` oracle covering the strings of the scenario. -/
def parse0 : String → Option JsonVal := fun s =>
  if s = metaTwo then some (.arr [.str "C1", .str "C2"])
  else if s = "[]" then some (.arr [])
  else none

/-- The product of the scenario's variant. -/
def prod0 : ProductNode := ⟨some "gid://shopify/Product/123", some "Widget", some "widget"⟩

/-- The scenario's variant node. -/
def node0 : VariantNode := ⟨some "SKU-1", some "Widget - Default", some prod0, some metaTwo⟩

/-- Company C2 of the scenario, resolvable to an email. -/
def acmeNode : CompanyNode := ⟨"Acme", some ⟨some ⟨some ⟨some "a@acme.com"⟩, none⟩, none⟩⟩

/-- The company oracle: C2 resolves, every other lookup throws. -/
def fetch0 : String → Except Unit (Option CompanyNode) := fun g =>
  if g = "gid://shopify/Company/C2" then .ok (some acmeNode) else .error ()

/-- The credential binding of the scenario's shop. -/
def cfg0 : ShopAdminConfig := ⟨"shop.example.com", "token-1"⟩

/-- The shop-config oracle: only shop 66638577877 is bound. -/
def shopCfgTable : String → Option ShopAdminConfig := fun sid =>
  if sid = "66638577877" then some cfg0 else none

/-- The oracles of the happy path: dispatch succeeds. -/
def O0 : Oracles := ⟨shopCfgTable, .ok (some node0), parse0, fetch0, .ok ⟨true⟩, .ok ()⟩

/-- The state the happy path reaches at the dispatch step. -/
def st0 : DispatchState :=
  ⟨cfg0, node0, ["C1", "C2"], [⟨"C2", "Acme", "a@acme.com"⟩], 123,
    ⟨.str gidShop, "66638577877", .str gidVariant, 3, 0⟩⟩

/-- Variation: the outbound dispatch fails at the transport level. -/
def OdispErr : Oracles := { O0 with dispatch := .error () }

/-- Variation: the outbound dispatch returns a non-2xx response. -/
def OdispBad : Oracles := { O0 with dispatch := .ok ⟨false⟩ }

/-- Variation: no shop has a credential binding. -/
def Onone : Oracles := { O0 with shopConfig := fun _ => none }

/-- Variation: the variant's product GID has a non-numeric tail. -/
def nodeBadP : VariantNode :=
  ⟨some "SKU-1", some "Widget - Default",
    some ⟨some "gid://shopify/Product/abc", some "Widget", some "widget"⟩,
    some metaTwo⟩

/-- Oracles serving the bad-product-GID variant. -/
def ObadP : Oracles := { O0 with variantFetch := .ok (some nodeBadP) }

/-- Environment with the shared secret set to the empty string. -/
def envEmpty : FlowEnv := ⟨some ""⟩

/-! ## Pipeline lemmas -/

/-- The only early return of `resolveShop` is the 500 for an unknown shop. -/
theorem resolveShop_error (O : Oracles) (v : Validated) (r : FlowResponse)
    (h : resolveShop O v = .error r) : r = .unknownShop := by
  unfold resolveShop at h
  split at h <;> simp_all

/-- The early returns of `loadVariant` are the 500 and the 404. -/
theorem loadVariant_error (O : Oracles) (r : FlowResponse)
    (h : loadVariant O = .error r) :
    r = .variantLoadError ∨ r = .variantNotFound := by
  unfold loadVariant at h
  split at h <;> simp_all

/-- The early returns of `validateBody` are the three 400s. -/
theorem validateBody_error (b : FlowBody) (r : FlowResponse)
    (h : validateBody b = .error r) :
    r = .missingShopId ∨ r = .missingVariantId ∨ r = .badQuantities := by
  unfold validateBody at h
  repeat' split at h
  all_goals simp_all

/-- The only early return of `checkCompanies` is the no-subscribers skip. -/
theorem checkCompanies_error (ids : List String) (r : FlowResponse)
    (h : checkCompanies ids = .error r) : r = .skippedNoCompanies := by
  unfold checkCompanies at h
  split at h <;> simp_all

/-- `checkCompanies` passes its input through. -/
theorem checkCompanies_ok (ids ids2 : List String)
    (h : checkCompanies ids = .ok ids2) : ids2 = ids := by
  unfold checkCompanies at h
  split at h <;> simp_all

/-- The only early return of `checkRecipients` is the no-emails skip. -/
theorem checkRecipients_error (rs : List CompanyRecipient) (r : FlowResponse)
    (h : checkRecipients rs = .error r) : r = .skippedNoEmails := by
  unfold checkRecipients at h
  split at h <;> simp_all

/-- `checkRecipients` passes its input through. -/
theorem checkRecipients_ok (rs rs2 : List CompanyRecipient)
    (h : checkRecipients rs = .ok rs2) : rs2 = rs := by
  unfold checkRecipients at h
  split at h <;> simp_all

/-- The only early return of `deriveProduct` is the 500. -/
theorem deriveProduct_error (node : VariantNode) (r : FlowResponse)
    (h : deriveProduct node = .error r) : r = .noProductId := by
  unfold deriveProduct at h
  repeat' split at h
  all_goals simp_all

/-- The only early return of `runGate` is the threshold skip. -/
theorem runGate_error (v : Validated) (r : FlowResponse)
    (h : runGate v = .error r) : r = .skippedThreshold := by
  unfold runGate at h
  split at h <;> simp_all

/-- The only early return of `checkMethod` is the 405. -/
theorem checkMethod_error (req : FlowRequest) (r : FlowResponse)
    (h : checkMethod req = .error r) : r = .methodNotAllowed := by
  unfold checkMethod at h
  split at h <;> simp_all

/-- The only early return of `checkSecret` is the 401. -/
theorem checkSecret_error (env : FlowEnv) (req : FlowRequest) (r : FlowResponse)
    (h : checkSecret env req = .error r) : r = .unauthorized := by
  unfold checkSecret at h
  split at h <;> simp_all

/-- The only early return of `parseBody` is the 400. -/
theorem parseBody_error (req : FlowRequest) (r : FlowResponse)
    (h : parseBody req = .error r) : r = .invalidJson := by
  unfold parseBody at h
  split at h <;> simp_all

/-- The early returns of the post-gate pipeline: shop resolution, variant
load, the two skip gates and the product-ID derivation. -/
theorem postGate_error_cases (O : Oracles) (v : Validated) (r : FlowResponse)
    (h : postGate O v = .error r) :
    r = .unknownShop ∨ r = .variantLoadError ∨ r = .variantNotFound ∨
      r = .skippedNoCompanies ∨ r = .skippedNoEmails ∨ r = .noProductId := by
  unfold postGate at h
  repeat' split at h
  all_goals try exact Except.noConfusion h
  all_goals injection h with h2
  all_goals subst h2
  all_goals first
    | (have h3 := resolveShop_error _ _ _ (by assumption); simp_all)
    | (rcases loadVariant_error _ _ (by assumption) with h3 | h3 <;> simp_all)
    | (have h3 := checkCompanies_error _ _ (by assumption); simp_all)
    | (have h3 := checkRecipients_error _ _ (by assumption); simp_all)
    | (have h3 := deriveProduct_error _ _ (by assumption); simp_all)

/-- When the pipeline reaches the dispatch step, the recorded company IDs
are the metafield extraction and the recorded recipients their resolution. -/
theorem postGate_ok_fields (O : Oracles) (v : Validated) (st : DispatchState)
    (h : postGate O v = .ok st) :
    st.companyIds = extractCompanyIds O.jsonParse st.variantNode.metafieldValue ∧
      st.recipients = resolveRecipients O.companyFetch st.companyIds := by
  unfold postGate at h
  repeat' split at h
  all_goals try exact Except.noConfusion h
  have h1 := checkCompanies_ok _ _ (by assumption)
  have h2 := checkRecipients_ok _ _ (by assumption)
  injection h with h4
  subst h4
  refine ⟨?_, ?_⟩ <;> simp_all

/-- `postGate_ok_fields`, lifted over the front half of the pipeline. -/
theorem preDispatch_ok_fields (env : FlowEnv) (req : FlowRequest) (O : Oracles)
    (st : DispatchState) (h : preDispatch env req O = .ok st) :
    st.companyIds = extractCompanyIds O.jsonParse st.variantNode.metafieldValue ∧
      st.recipients = resolveRecipients O.companyFetch st.companyIds := by
  unfold preDispatch at h
  repeat' split at h
  all_goals try exact Except.noConfusion h
  exact postGate_ok_fields _ _ _ h

/-- For a POST request with a valid non-empty secret and a well-formed body,
the front half of the pipeline reduces to the threshold gate followed by the
post-gate pipeline. -/
theorem preDispatch_wellFormed (env : FlowEnv) (req : FlowRequest) (O : Oracles)
    (sec : String) (b : FlowBody) (sid vid : JsonVal) (newQ prevQ : Int)
    (hm : req.method = "POST")
    (hsec : env.flowSharedSecret = some sec) (hne : sec ≠ "")
    (hhdr : req.flowSecretHeader = some sec)
    (hb : req.body = some b)
    (hsid : b.shopId = some sid) (hsidT : jsFalsy sid = false)
    (hvid : b.variantId = some vid) (hvidT : jsFalsy vid = false)
    (hq : b.inventoryQuantity = some (.num newQ))
    (hpq : b.previousInventoryQuantity = some (.num prevQ)) :
    preDispatch env req O =
      match runGate ⟨sid, normalizeShopId sid, vid, newQ, prevQ⟩ with
      | .error r => .error r
      | .ok v2 => postGate O v2 := by
  unfold preDispatch checkMethod checkSecret parseBody validateBody
  simp [hm, hsec, hhdr, hb, hsid, hvid, hq, hpq, hne, hsidT, hvidT]

/-- Extracting the secret condition from an unauthorized early return. -/
theorem checkSecret_error_cond (env : FlowEnv) (req : FlowRequest)
    (h : checkSecret env req = .error .unauthorized) :
    env.flowSharedSecret.getD "" = "" ∨
      req.flowSecretHeader.getD "" ≠ env.flowSharedSecret.getD "" := by
  unfold checkSecret at h
  split at h
  · assumption
  · exact Except.noConfusion h

/-- A 401 outcome of the pipeline can only come from the secret check. -/
theorem preDispatch_unauthorized (env : FlowEnv) (req : FlowRequest)
    (O : Oracles) (h : preDispatch env req O = .error .unauthorized) :
    env.flowSharedSecret.getD "" = "" ∨
      req.flowSecretHeader.getD "" ≠ env.flowSharedSecret.getD "" := by
  unfold preDispatch at h
  repeat' split at h
  · have h3 := checkMethod_error _ _ (by assumption)
    injection h with h2
    simp_all
  · injection h with h2
    subst h2
    exact checkSecret_error_cond _ _ (by assumption)
  · have h3 := parseBody_error _ _ (by assumption)
    injection h with h2
    simp_all
  · have h3 := validateBody_error _ _ (by assumption)
    injection h with h2
    rcases h3 with h4 | h4 | h4 <;> simp_all
  · have h3 := runGate_error _ _ (by assumption)
    injection h with h2
    simp_all
  · rcases postGate_error_cases _ _ _ h with h3 | h3 | h3 | h3 | h3 | h3 <;>
      simp_all

/-! ## The claims -/

/-- C1: for every POST /stock-restored request with a valid shared secret and
a well-formed body (numeric `inventoryQuantity` and
`previousInventoryQuantity`), the notification trigger fires (the handler
proceeds past the gate) if and only if `previousInventoryQuantity <= 0` and
`inventoryQuantity > 0`; every other quantity pair yields the 200 response
with `ok: true`, `skipped: true` and reason "Inventory threshold not
crossed" rather than an error. -/
theorem stockRestored_threshold_gate (env : FlowEnv) (req : FlowRequest)
    (O : Oracles) (sec : String) (b : FlowBody) (sid vid : JsonVal)
    (newQ prevQ : Int)
    (hm : req.method = "POST")
    (hsec : env.flowSharedSecret = some sec) (hne : sec ≠ "")
    (hhdr : req.flowSecretHeader = some sec)
    (hb : req.body = some b)
    (hsid : b.shopId = some sid) (hsidT : jsFalsy sid = false)
    (hvid : b.variantId = some vid) (hvidT : jsFalsy vid = false)
    (hq : b.inventoryQuantity = some (.num newQ))
    (hpq : b.previousInventoryQuantity = some (.num prevQ)) :
    ((runStockRestored env req O).resp = .skippedThreshold ↔
      ¬(prevQ ≤ 0 ∧ 0 < newQ)) ∧
    statusOf .skippedThreshold = 200 ∧ okOf .skippedThreshold = true ∧
    skippedOf .skippedThreshold = true ∧
    reasonOf .skippedThreshold = some "Inventory threshold not crossed" := by
  refine ⟨?_, rfl, rfl, rfl, rfl⟩
  have hfront := preDispatch_wellFormed env req O sec b sid vid newQ prevQ hm
    hsec hne hhdr hb hsid hsidT hvid hvidT hq hpq
  unfold runStockRestored
  rw [hfront]
  by_cases hc : 0 < newQ ∧ prevQ ≤ 0
  · have hrg : runGate ⟨sid, normalizeShopId sid, vid, newQ, prevQ⟩ =
        .ok ⟨sid, normalizeShopId sid, vid, newQ, prevQ⟩ := by
      unfold runGate
      exact if_pos hc
    simp only [hrg]
    have hcomm : prevQ ≤ 0 ∧ 0 < newQ := ⟨hc.2, hc.1⟩
    simp only [hcomm, and_self, not_true_eq_false, iff_false]
    rcases hpg : postGate O ⟨sid, normalizeShopId sid, vid, newQ, prevQ⟩
      with r | st
    · intro hcontra
      simp only at hcontra
      rcases postGate_error_cases _ _ _ hpg with h3 | h3 | h3 | h3 | h3 | h3 <;>
        simp_all
    · rcases hd : O.dispatch with e | dresp
      · simp
      · by_cases hok : dresp.ok <;> simp [hok]
  · have hrg : runGate ⟨sid, normalizeShopId sid, vid, newQ, prevQ⟩ =
        .error .skippedThreshold := by
      unfold runGate
      exact if_neg hc
    simp only [hrg]
    have hcomm : ¬(prevQ ≤ 0 ∧ 0 < newQ) := fun hx => hc ⟨hx.2, hx.1⟩
    simp [hcomm]

/-- C9: the threshold gate runs before shop-credential resolution: a valid,
well-formed request whose quantities do not cross is answered with the skip
outcome for every oracle assignment (in particular, no shop-config lookup
can influence it), whereas a crossing request whose shop has no credential
binding is answered 500. -/
theorem stockRestored_gate_before_credentials (env : FlowEnv)
    (req : FlowRequest) (sec : String) (b : FlowBody) (sid vid : JsonVal)
    (newQ prevQ : Int)
    (hm : req.method = "POST")
    (hsec : env.flowSharedSecret = some sec) (hne : sec ≠ "")
    (hhdr : req.flowSecretHeader = some sec)
    (hb : req.body = some b)
    (hsid : b.shopId = some sid) (hsidT : jsFalsy sid = false)
    (hvid : b.variantId = some vid) (hvidT : jsFalsy vid = false)
    (hq : b.inventoryQuantity = some (.num newQ))
    (hpq : b.previousInventoryQuantity = some (.num prevQ)) :
    (¬(prevQ ≤ 0 ∧ 0 < newQ) → ∀ O : Oracles,
      runStockRestored env req O = ⟨.skippedThreshold, none, none⟩) ∧
    ((prevQ ≤ 0 ∧ 0 < newQ) → ∀ O : Oracles,
      O.shopConfig (normalizeShopId sid) = none →
      (runStockRestored env req O).resp = .unknownShop) ∧
    statusOf .skippedThreshold = 200 ∧ okOf .skippedThreshold = true ∧
    skippedOf .skippedThreshold = true ∧ statusOf .unknownShop = 500 := by
  refine ⟨?_, ?_, rfl, rfl, rfl, rfl⟩
  · intro hc O
    have hfront := preDispatch_wellFormed env req O sec b sid vid newQ prevQ hm
      hsec hne hhdr hb hsid hsidT hvid hvidT hq hpq
    unfold runStockRestored
    rw [hfront]
    have hrg : runGate ⟨sid, normalizeShopId sid, vid, newQ, prevQ⟩ =
        .error .skippedThreshold := by
      unfold runGate
      exact if_neg fun hx => hc ⟨hx.2, hx.1⟩
    simp only [hrg]
  · intro hc O hcfg
    have hfront := preDispatch_wellFormed env req O sec b sid vid newQ prevQ hm
      hsec hne hhdr hb hsid hsidT hvid hvidT hq hpq
    unfold runStockRestored
    rw [hfront]
    have hrg : runGate ⟨sid, normalizeShopId sid, vid, newQ, prevQ⟩ =
        .ok ⟨sid, normalizeShopId sid, vid, newQ, prevQ⟩ := by
      unfold runGate
      exact if_pos ⟨hc.2, hc.1⟩
    simp only [hrg]
    have hpg : postGate O ⟨sid, normalizeShopId sid, vid, newQ, prevQ⟩ =
        .error .unknownShop := by
      unfold postGate resolveShop
      simp [hcfg]
    simp only [hpg]

/-- C10: a POST /stock-restored request is authorized if and only if the
configured shared secret is non-empty and exactly equal to the request's
secret header; with the secret unset or empty every request is answered 401,
including one whose empty header matches the empty expected value. -/
theorem stockRestored_secret_gate (env : FlowEnv) (req : FlowRequest)
    (O : Oracles) (hm : req.method = "POST") :
    ((runStockRestored env req O).resp = .unauthorized ↔
      (env.flowSharedSecret.getD "" = "" ∨
        req.flowSecretHeader.getD "" ≠ env.flowSharedSecret.getD "")) ∧
    statusOf .unauthorized = 401 ∧ okOf .unauthorized = false ∧
    errorTextOf .unauthorized = some "Unauthorized" := by
  refine ⟨⟨?_, ?_⟩, rfl, rfl, rfl⟩
  · intro h
    unfold runStockRestored at h
    rcases hpd : preDispatch env req O with r | st
    · rw [hpd] at h
      simp only at h
      subst h
      exact preDispatch_unauthorized _ _ _ hpd
    · rw [hpd] at h
      rcases hd : O.dispatch with e | dresp <;> rw [hd] at h
      · simp at h
      · by_cases hok : dresp.ok <;> simp [hok] at h
  · intro hcond
    unfold runStockRestored preDispatch checkMethod checkSecret
    rw [hm]
    simp only [if_pos rfl]
    rw [if_pos hcond]
    simp

/-- C2: once the pipeline reaches the dispatch step, a transport failure or a
non-2xx dispatch response yields the 502 outcome with no clear mutation
issued, while a successful dispatch issues the clear mutation writing the
empty JSON array — after which the stock-restored read path sees no
subscribers. -/
theorem stockRestored_clear_on_success (env : FlowEnv) (req : FlowRequest)
    (O : Oracles) (st : DispatchState)
    (h : preDispatch env req O = .ok st) :
    (∀ u : Unit, O.dispatch = .error u →
      runStockRestored env req O =
        ⟨.dispatchFailedTransport, some (mkPayload st), none⟩) ∧
    (∀ dresp : DispatchResp, O.dispatch = .ok dresp → dresp.ok = false →
      runStockRestored env req O =
        ⟨.dispatchFailedHttp, some (mkPayload st), none⟩) ∧
    (∀ dresp : DispatchResp, O.dispatch = .ok dresp → dresp.ok = true →
      runStockRestored env req O =
        ⟨.success st.recipients.length st.productNumericId,
          some (mkPayload st), some clearedValue⟩) ∧
    statusOf .dispatchFailedTransport = 502 ∧
    statusOf .dispatchFailedHttp = 502 ∧
    (∀ parse : String → Option JsonVal, parse clearedValue = some (.arr []) →
      extractCompanyIds parse (some clearedValue) = []) := by
  refine ⟨?_, ?_, ?_, rfl, rfl, ?_⟩
  · intro u hd
    unfold runStockRestored
    simp only [h, hd]
  · intro dresp hd hok
    unfold runStockRestored
    simp only [h, hd, hok]
    simp
  · intro dresp hd hok
    unfold runStockRestored
    simp only [h, hd, hok]
    simp
  · intro parse hp
    unfold extractCompanyIds truthyStr
    simp only [clearedValue] at hp ⊢
    simp [hp]

/-- C5: a subscriber whose company lookup throws, finds no company, or
yields no email is dropped, while a resolvable one is kept: with subscriber
list `[c1, c2]` where only `c2` resolves (to email `e`), the dispatch
payload's subscriber list is exactly `[e]` and the success response reports
`sent = 1`, the number of resolved recipients. -/
theorem stockRestored_partial_recipients (env : FlowEnv) (req : FlowRequest)
    (O : Oracles) (c1 c2 : String) (node2 : CompanyNode) (e : String)
    (st : DispatchState)
    (h1 : O.companyFetch (companyGidForFanout c1) = .error () ∨
      O.companyFetch (companyGidForFanout c1) = .ok none ∨
      ∃ node1, O.companyFetch (companyGidForFanout c1) = .ok (some node1) ∧
        deriveEmail node1 = none)
    (h2 : O.companyFetch (companyGidForFanout c2) = .ok (some node2))
    (h2e : deriveEmail node2 = some e)
    (hpre : preDispatch env req O = .ok st)
    (hids : st.companyIds = [c1, c2])
    (hdisp : O.dispatch = .ok ⟨true⟩) :
    st.recipients = [⟨c2, node2.name, e⟩] ∧
    (runStockRestored env req O).dispatched = some (mkPayload st) ∧
    (mkPayload st).subscribers = [e] ∧
    (runStockRestored env req O).resp = .success 1 st.productNumericId := by
  obtain ⟨hc, hr⟩ := preDispatch_ok_fields _ _ _ _ hpre
  have hrec : st.recipients = [⟨c2, node2.name, e⟩] := by
    rw [hr, hids]
    unfold resolveRecipients
    rcases h1 with h1 | h1 | ⟨node1, h1, h1e⟩
    · simp [List.filterMap_cons, h1, h2, h2e]
    · simp [List.filterMap_cons, h1, h2, h2e]
    · simp [List.filterMap_cons, h1, h2, h2e, h1e]
  refine ⟨hrec, ?_, ?_, ?_⟩
  · unfold runStockRestored
    simp only [hpre, hdisp]
    simp
  · unfold mkPayload
    simp [hrec]
  · unfold runStockRestored
    simp only [hpre, hdisp]
    simp [hrec]

/-- C8: when the fan-out reaches step 8 and the variant's product GID has a
tail that `parseInt(..., 10)` cannot parse, the handler answers the 500
"Could not derive product_id from product GID" and the outbound dispatch is
never called. -/
theorem stockRestored_bad_product_gid (env : FlowEnv) (req : FlowRequest)
    (O : Oracles) (sec : String) (b : FlowBody) (sid vid : JsonVal)
    (newQ prevQ : Int) (cfg : ShopAdminConfig) (node : VariantNode)
    (p : ProductNode) (g : String)
    (hm : req.method = "POST")
    (hsec : env.flowSharedSecret = some sec) (hne : sec ≠ "")
    (hhdr : req.flowSecretHeader = some sec)
    (hb : req.body = some b)
    (hsid : b.shopId = some sid) (hsidT : jsFalsy sid = false)
    (hvid : b.variantId = some vid) (hvidT : jsFalsy vid = false)
    (hq : b.inventoryQuantity = some (.num newQ))
    (hpq : b.previousInventoryQuantity = some (.num prevQ))
    (hcross : prevQ ≤ 0 ∧ 0 < newQ)
    (hcfg : O.shopConfig (normalizeShopId sid) = some cfg)
    (hvar : O.variantFetch = .ok (some node))
    (hcomp : extractCompanyIds O.jsonParse node.metafieldValue ≠ [])
    (hrecs : resolveRecipients O.companyFetch
      (extractCompanyIds O.jsonParse node.metafieldValue) ≠ [])
    (hp : node.product = some p) (hgid : p.id = some g)
    (hbad : jsParseInt10 ((jsSplitSlash g).getLastD "") = none) :
    runStockRestored env req O = ⟨.noProductId, none, none⟩ ∧
    statusOf .noProductId = 500 ∧
    errorTextOf .noProductId =
      some "Could not derive product_id from product GID" := by
  refine ⟨?_, rfl, rfl⟩
  have hfront := preDispatch_wellFormed env req O sec b sid vid newQ prevQ hm
    hsec hne hhdr hb hsid hsidT hvid hvidT hq hpq
  unfold runStockRestored
  rw [hfront]
  have hrg : runGate ⟨sid, normalizeShopId sid, vid, newQ, prevQ⟩ =
      .ok ⟨sid, normalizeShopId sid, vid, newQ, prevQ⟩ := by
    unfold runGate
    exact if_pos ⟨hcross.2, hcross.1⟩
  simp only [hrg]
  have hbad2 : jsParseInt10 (((jsSplitSlash g).getLast?).getD "") = none := by
    rw [← List.getLastD_eq_getLast?]
    exact hbad
  have hpg : postGate O ⟨sid, normalizeShopId sid, vid, newQ, prevQ⟩ =
      .error .noProductId := by
    unfold postGate resolveShop loadVariant checkCompanies checkRecipients
      deriveProduct
    simp [hcfg, hvar, hcomp, hrecs, hp, hgid, hbad2]
  simp only [hpg]

/-- C4: every read path of the subscriber list is fail-open: a missing
metafield or null value, an empty-string value, a value the JSON parser
rejects, or parsed JSON that is not an array all produce the empty
subscriber list on the stock-restored path, the app-proxy path and the list
path alike (and, being total Lean functions, none of them can raise). -/
theorem readSubscribers_fail_open (parse : String → Option JsonVal)
    (raw : Option String)
    (h : raw = none ∨ raw = some "" ∨
      (∃ s, raw = some s ∧ parse s = none) ∨
      (∃ s j, raw = some s ∧ parse s = some j ∧ ∀ xs, j ≠ .arr xs)) :
    extractCompanyIds parse raw = [] ∧ readSubscribersProxy parse raw = [] ∧
      readSubscribersList parse raw = [] := by
  rcases h with h | h | ⟨s, hs, hp⟩ | ⟨s, j, hs, hp, hj⟩
  · subst h
    exact ⟨rfl, rfl, rfl⟩
  · subst h
    exact ⟨rfl, rfl, rfl⟩
  · subst hs
    unfold extractCompanyIds readSubscribersProxy readSubscribersList truthyStr
    by_cases hse : s = ""
    · simp [hse]
    · simp [hse, hp]
  · subst hs
    unfold extractCompanyIds readSubscribersProxy readSubscribersList truthyStr
    by_cases hse : s = ""
    · simp [hse]
    · cases j <;> simp_all

/-- C6: the no-duplicates invariant of the stored subscriber list is
preserved by the add step (in both its string-list and raw-array forms) and
by the clear step. -/
theorem subscriberList_nodup_preserved (l : List String) (c : String)
    (h : l.Nodup) :
    (addSubscriber l c).Nodup ∧ (clearSubscribers l).Nodup ∧
      (∀ lj : List JsonVal, lj.Nodup → (addSubscriberProxy lj c).Nodup) := by
  refine ⟨?_, by simp [clearSubscribers], ?_⟩
  · unfold addSubscriber
    split
    · exact h
    · rename_i hmem
      simp [List.nodup_append, h, hmem]
  · intro lj hlj
    unfold addSubscriberProxy
    split
    · exact hlj
    · rename_i hany
      have hmem : JsonVal.str c ∉ lj := by
        intro hm
        exact hany (List.any_eq_true.mpr ⟨.str c, hm, by simp [jsStrictEqStr]⟩)
      simp [List.nodup_append, hlj, hmem]

/-- One add step turns "at most one occurrence" into "exactly one". -/
theorem addSubscriber_count_eq_one (l : List String) (c : String)
    (h : l.count c ≤ 1) : (addSubscriber l c).count c = 1 := by
  unfold addSubscriber
  split
  · rename_i hmem
    have h1 := List.count_pos_iff.mpr hmem
    omega
  · rename_i hmem
    have h0 : l.count c = 0 := List.count_eq_zero.mpr hmem
    simp [List.count_append, h0]

/-- C3 (counterexample): a starting list that already holds the company
twice keeps both occurrences through `addSubscriber` — the claim's "exactly
one occurrence for every starting list" fails. -/
theorem addSubscriber_idempotence_cex :
    ¬ (addSubscriberTimes ["C7", "C7"] "C7" 1).count "C7" = 1 := by
  decide

/-- C3 (amended): for every starting list holding the company at most once —
in particular any deduplicated list, and the empty list — every sequence of
one or more repeated `addSubscriber(v, c)` calls leaves exactly one
occurrence of `c`; subscribing the same company twice starting from empty
yields a list of size 1. -/
theorem addSubscriber_idempotent_amended :
    (∀ (l : List String) (c : String), l.count c ≤ 1 →
      ∀ n, 1 ≤ n → (addSubscriberTimes l c n).count c = 1) ∧
    (∀ c : String, (addSubscriberTimes [] c 2).length = 1) := by
  constructor
  · intro l c h n hn
    induction n with
    | zero => omega
    | succ m ih =>
      rcases Nat.eq_zero_or_pos m with hm | hm
      · subst hm
        simpa [addSubscriberTimes] using addSubscriber_count_eq_one l c h
      · have hone := ih hm
        have : (addSubscriberTimes l c m).count c ≤ 1 := by omega
        simpa [addSubscriberTimes] using
          addSubscriber_count_eq_one (addSubscriberTimes l c m) c this
  · intro c
    simp [addSubscriberTimes, addSubscriber]

/-- C7 (counterexample): the origin-mapped subscribe route's variant-GID
construction and the fan-out's company-GID construction prepend the prefix
unconditionally, so an already-qualified identifier is not returned
unchanged. -/
theorem normalizer_idempotence_cex :
    originSubscribeVariantGid "gid://shopify/ProductVariant/1" ≠
      "gid://shopify/ProductVariant/1" ∧
    companyGidForFanout "gid://shopify/Company/1" ≠
      "gid://shopify/Company/1" := by
  decide

/-- C7 (amended): the normalizers that guard on the global-ID prefix — the
app-proxy subscribe route's `toVariantGid` and the list route's company
mapping — are idempotent: an already-qualified identifier is returned
unchanged.  (The origin-mapped subscribe route and the fan-out prepend
unconditionally and are excluded.) -/
theorem normalizer_idempotent_amended (id : String)
    (h : jsStartsWith id "gid://" = true) :
    toVariantGid id = id ∧ companyGidForList id = id := by
  unfold toVariantGid companyGidForList
  simp [h]

/-! ## Witnesses -/

/-- C1 witness: (prev=0,new=3) and (prev=-1,new=1) fire; (prev=2,new=5) and
(prev=0,new=0) are answered with the threshold skip. -/
theorem stockRestored_threshold_gate_witness :
    (runStockRestored envOk (mkReq 0 3) O0).resp ≠ .skippedThreshold ∧
    (runStockRestored envOk (mkReq (-1) 1) O0).resp ≠ .skippedThreshold ∧
    (runStockRestored envOk (mkReq 2 5) O0).resp = .skippedThreshold ∧
    (runStockRestored envOk (mkReq 0 0) O0).resp = .skippedThreshold ∧
    statusOf .skippedThreshold = 200 ∧ okOf .skippedThreshold = true := by
  refine ⟨?_, ?_, ?_, ?_, rfl, rfl⟩
  · intro hcon
    exact (stockRestored_threshold_gate envOk (mkReq 0 3) O0 secretVal _
      (.str gidShop) (.str gidVariant) 3 0 rfl rfl (by decide) rfl rfl rfl
      (by decide) rfl (by decide) rfl rfl).1.mp hcon (by decide)
  · intro hcon
    exact (stockRestored_threshold_gate envOk (mkReq (-1) 1) O0 secretVal _
      (.str gidShop) (.str gidVariant) 1 (-1) rfl rfl (by decide) rfl rfl rfl
      (by decide) rfl (by decide) rfl rfl).1.mp hcon (by decide)
  · exact (stockRestored_threshold_gate envOk (mkReq 2 5) O0 secretVal _
      (.str gidShop) (.str gidVariant) 5 2 rfl rfl (by decide) rfl rfl rfl
      (by decide) rfl (by decide) rfl rfl).1.mpr (by decide)
  · exact (stockRestored_threshold_gate envOk (mkReq 0 0) O0 secretVal _
      (.str gidShop) (.str gidVariant) 0 0 rfl rfl (by decide) rfl rfl rfl
      (by decide) rfl (by decide) rfl rfl).1.mpr (by decide)

/-- C2 witness: the happy path clears with `"[]"` (and the cleared value
reads back as no subscribers), both dispatch-failure variants answer 502
with no clear issued. -/
theorem stockRestored_clear_on_success_witness :
    (runStockRestored envOk reqOk O0).clearWrite = some clearedValue ∧
    extractCompanyIds parse0 (some clearedValue) = [] ∧
    runStockRestored envOk reqOk OdispErr =
      ⟨.dispatchFailedTransport, some (mkPayload st0), none⟩ ∧
    runStockRestored envOk reqOk OdispBad =
      ⟨.dispatchFailedHttp, some (mkPayload st0), none⟩ ∧
    statusOf .dispatchFailedTransport = 502 := by
  have hok := stockRestored_clear_on_success envOk reqOk O0 st0 rfl
  have herr := stockRestored_clear_on_success envOk reqOk OdispErr st0 rfl
  have hbad := stockRestored_clear_on_success envOk reqOk OdispBad st0 rfl
  refine ⟨?_, ?_, ?_, ?_, rfl⟩
  · rw [hok.2.2.1 ⟨true⟩ rfl rfl]
  · exact hok.2.2.2.2.2 parse0 rfl
  · exact herr.1 () rfl
  · exact hbad.2.1 ⟨false⟩ rfl rfl

/-- C5 witness: with subscribers `["C1", "C2"]` where C1's lookup throws and
C2 resolves to `a@acme.com`, the payload carries exactly that email and the
response reports `sent = 1`. -/
theorem stockRestored_partial_recipients_witness :
    st0.recipients = [⟨"C2", "Acme", "a@acme.com"⟩] ∧
    (mkPayload st0).subscribers = ["a@acme.com"] ∧
    (runStockRestored envOk reqOk O0).resp = .success 1 st0.productNumericId := by
  have h := stockRestored_partial_recipients envOk reqOk O0 "C1" "C2" acmeNode
    "a@acme.com" st0 (Or.inl rfl) rfl (by decide) rfl rfl rfl
  exact ⟨h.1, h.2.2.1, h.2.2.2⟩

/-- C8 witness: product GID `gid://shopify/Product/abc` makes the handler
answer the 500 with no dispatch. -/
theorem stockRestored_bad_product_gid_witness :
    runStockRestored envOk reqOk ObadP = ⟨.noProductId, none, none⟩ ∧
    statusOf .noProductId = 500 := by
  have h := stockRestored_bad_product_gid envOk reqOk ObadP secretVal _
    (.str gidShop) (.str gidVariant) 3 0 cfg0 nodeBadP
    ⟨some "gid://shopify/Product/abc", some "Widget", some "widget"⟩
    "gid://shopify/Product/abc" rfl rfl (by decide) rfl rfl rfl (by decide)
    rfl (by decide) rfl rfl (by decide) (by decide) rfl (by decide) (by decide)
    rfl rfl (by decide)
  exact ⟨h.1, h.2.1⟩

/-- C9 witness: with no shop bound at all, a non-crossing request still
succeeds as the threshold skip, while the crossing one is answered 500. -/
theorem stockRestored_gate_before_credentials_witness :
    runStockRestored envOk (mkReq 2 5) Onone = ⟨.skippedThreshold, none, none⟩ ∧
    (runStockRestored envOk (mkReq 0 3) Onone).resp = .unknownShop ∧
    statusOf .unknownShop = 500 := by
  refine ⟨?_, ?_, rfl⟩
  · exact (stockRestored_gate_before_credentials envOk (mkReq 2 5) secretVal _
      (.str gidShop) (.str gidVariant) 5 2 rfl rfl (by decide) rfl rfl rfl
      (by decide) rfl (by decide) rfl rfl).1 (by decide) Onone
  · exact (stockRestored_gate_before_credentials envOk (mkReq 0 3) secretVal _
      (.str gidShop) (.str gidVariant) 3 0 rfl rfl (by decide) rfl rfl rfl
      (by decide) rfl (by decide) rfl rfl).2.1 (by decide) Onone rfl

/-- C10 witness: with the expected secret configured empty, a request whose
empty header matches it is still answered 401; with a proper secret, the
matching request is not answered 401. -/
theorem stockRestored_secret_gate_witness :
    (runStockRestored envEmpty ⟨"POST", some "", none⟩ O0).resp =
      .unauthorized ∧
    (runStockRestored envOk reqOk O0).resp ≠ .unauthorized ∧
    statusOf .unauthorized = 401 := by
  refine ⟨?_, ?_, rfl⟩
  · exact (stockRestored_secret_gate envEmpty ⟨"POST", some "", none⟩ O0
      rfl).1.mpr (by decide)
  · intro hcon
    exact absurd ((stockRestored_secret_gate envOk reqOk O0 rfl).1.mp hcon)
      (by decide)

/-- C4 witness: a missing metafield reads as no subscribers on every path. -/
theorem readSubscribers_fail_open_witness :
    extractCompanyIds parse0 none = [] ∧ readSubscribersProxy parse0 none = [] ∧
      readSubscribersList parse0 none = [] :=
  readSubscribers_fail_open parse0 none (Or.inl rfl)

/-- C6 witness: instances of the preserved invariant. -/
theorem subscriberList_nodup_preserved_witness :
    (addSubscriber ["C1"] "C2").Nodup ∧ (clearSubscribers ["C1"]).Nodup ∧
      (addSubscriberProxy [] "C2").Nodup := by
  have h := subscriberList_nodup_preserved ["C1"] "C2" (by decide)
  exact ⟨h.1, h.2.1, h.2.2 [] (by simp)⟩

/-- C3 witness (of the amended claim): three repeated subscribes on a
singleton list keep one occurrence; two subscribes from empty give size 1. -/
theorem addSubscriber_idempotent_amended_witness :
    (addSubscriberTimes ["C9"] "C9" 3).count "C9" = 1 ∧
    (addSubscriberTimes [] "C9" 2).length = 1 :=
  ⟨addSubscriber_idempotent_amended.1 ["C9"] "C9" (by decide) 3 (by decide),
    addSubscriber_idempotent_amended.2 "C9"⟩

/-- C7 witness (of the amended claim): the two guarded normalizers return an
already-qualified identifier unchanged. -/
theorem normalizer_idempotent_amended_witness :
    toVariantGid "gid://shopify/ProductVariant/1" =
      "gid://shopify/ProductVariant/1" ∧
    companyGidForList "gid://shopify/Company/9" = "gid://shopify/Company/9" :=
  ⟨(normalizer_idempotent_amended "gid://shopify/ProductVariant/1"
      (by decide)).1,
    (normalizer_idempotent_amended "gid://shopify/Company/9" (by decide)).2⟩
